import Mathlib

/-!
Verification of the CropDiseaseDetection web application.

The development shallowly embeds the two source files `app.py` and
`plant_disease_detector.py`.  Pure string and arithmetic computations become
Lean functions over `String`, `Nat` and `ℚ` (Python float literals are embedded
as exact rationals; only order comparisons on them occur in the source).
Stateful request handlers become explicit state-passing functions; the external
services (the image-classification model, the Gemini text service) and other
effects (fresh UUIDs, the database commit, the clock) are passed in as explicit
parameters or oracles.  Python exceptions become `Except` values.

The repository imports `models.py` and `gemini_service.py`, which are not part
of the available sources; where their behaviour matters it is modelled from the
specification (ORM row store with insert / get-by-id /
order-by-timestamp-descending-limit-20; external calls as oracles) and each
such definition says so in its doc comment.
-/

namespace CropDisease

/-- Decidable equality for `Except` results, used to evaluate the embedded
handlers on concrete inputs. -/
instance {e a : Type} [DecidableEq e] [DecidableEq a] : DecidableEq (Except e a) :=
  fun x y =>
    match x, y with
    | .ok u, .ok v =>
      if h : u = v then .isTrue (by rw [h]) else .isFalse (by simp [h])
    | .error u, .error v =>
      if h : u = v then .isTrue (by rw [h]) else .isFalse (by simp [h])
    | .ok _, .error _ => .isFalse (by simp)
    | .error _, .ok _ => .isFalse (by simp)

/-! ## Data model

`PlantDiseaseResult` rows.  Modelled from the spec: `models.py` is not in the
available sources; the spec gives the fields
{id, image_path, prediction, confidence (float in [0,1]), timestamp}.
Timestamps are modelled as natural numbers (creation times), confidences as
rationals. -/

structure ResultRow where
  id : Nat
  image_path : String
  prediction : String
  confidence : ℚ
  timestamp : Nat
deriving DecidableEq, Repr

/-- Modelled from the spec: the persistent state the handlers touch — the
files present in the upload directory and the rows of the ORM-backed result
store (`models.py` is not among the available sources). -/
structure AppState where
  files : List String
  rows : List ResultRow
deriving DecidableEq, Repr

/-- `app.config["UPLOAD_FOLDER"] = "static/uploads"` (app.py line 28). -/
def UPLOAD_FOLDER : String := "static/uploads"

/-- `ALLOWED_EXTENSIONS` = the set of png, jpg, jpeg, gif
(app.py line 30). -/
def ALLOWED_EXTENSIONS : List String := ["png", "jpg", "jpeg", "gif"]

/-- Python `str.lower`, character by character. -/
def lowerStr (s : String) : String := String.mk (s.toList.map Char.toLower)

/-- The part of `s` after its last dot: Python `s.rsplit` at the last dot, second component, when a
dot occurs in `s` (when no dot occurs it returns `s` itself, but every use is
guarded by the dot-membership test). -/
def afterLastDot (s : String) : String :=
  String.mk ((s.toList.reverse.takeWhile (fun c => c != '.')).reverse)

/-- `allowed_file` (app.py lines 50–51):
the filename contains a dot and the lowered text after the last dot is an allowed extension. -/
def allowed_file (filename : String) : Bool :=
  filename.toList.contains '.' &&
    ALLOWED_EXTENSIONS.contains (lowerStr (afterLastDot filename))

/-! ## POST /api/upload (app.py lines 92–139) -/

/-- The file part of a multipart upload request; only the filename matters to
the handler's control flow. -/
structure FilePart where
  filename : String
deriving DecidableEq, Repr

/-- An upload request: `request.files` at key file when the part is present. -/
structure UploadReq where
  filePart : Option FilePart
deriving DecidableEq, Repr

/-- JSON body of an `/api/upload` response. -/
inductive UploadBody where
  | err (msg : String)
  | ok (id : Nat) (image_path : String) (prediction : String)
      (confidence : ℚ) (timestamp : Nat)
deriving DecidableEq, Repr

/-- An HTTP response: status code and JSON body. -/
structure UploadResp where
  status : Nat
  body : UploadBody
deriving DecidableEq, Repr

/-- `upload_image` (app.py lines 92–139).  Effects are explicit parameters:
`uniqueName` is the uuid4-generated filename, `detect` the outcome of
`detect_disease` (`Except.error` when it raises), `commit` the outcome of
`db.session.add` + `db.session.commit` (the fresh row id on success,
`Except.error` when the ORM raises; modelled from the spec since `models.py`
is not among the available sources), `now` the value of `datetime.now()`.
On an exception after the save, the handler removes the saved file
(`os.remove`) and returns 500. -/
def upload_image (st : AppState) (req : UploadReq) (uniqueName : String)
    (detect : Except String (String × ℚ)) (commit : Except String Nat)
    (now : Nat) : AppState × UploadResp :=
  match req.filePart with
  | none => (st, ⟨400, .err "No file part"⟩)
  | some f =>
    if f.filename = "" then (st, ⟨400, .err "No selected file"⟩)
    else if !allowed_file f.filename then (st, ⟨400, .err "File type not allowed"⟩)
    else
      let file_path := UPLOAD_FOLDER ++ "/" ++ uniqueName
      let saved : AppState := { st with files := file_path :: st.files }
      match detect with
      | .error e => ({ saved with files := saved.files.erase file_path }, ⟨500, .err e⟩)
      | .ok (prediction, confidence) =>
        match commit with
        | .error e =>
            ({ saved with files := saved.files.erase file_path }, ⟨500, .err e⟩)
        | .ok rid =>
            let row : ResultRow := ⟨rid, file_path, prediction, confidence, now⟩
            ({ saved with rows := saved.rows ++ [row] },
             ⟨200, .ok rid file_path prediction confidence now⟩)

/-! ## GET /api/result/<id> (app.py lines 170–177)

`PlantDiseaseResult.query.get_or_404(result_id)` returns the row or calls
`abort(404)`, which raises `werkzeug.exceptions.NotFound`.  `NotFound` is a
subclass of `Exception`, so the handler's blanket `except Exception` catches
it and returns a 500 JSON error — the 404 never reaches the client. -/

/-- JSON body of a single-result or result-list response. -/
inductive JsonBody where
  | err (msg : String)
  | result (r : ResultRow)
  | results (rs : List ResultRow)
deriving DecidableEq, Repr

/-- `get_result` (app.py lines 170–177).  `get_or_404` raising `NotFound` on a
missing id is caught by the handler's `except Exception` clause, which turns
it into a 500 response. -/
def get_result (rows : List ResultRow) (result_id : Nat) : Nat × JsonBody :=
  match rows.find? (fun r => r.id == result_id) with
  | some r => (200, .result r)
  | none => (500, .err "404 Not Found")

/-! ## GET /history and GET /api/results (app.py lines 62–71 and 157–168)

Both run `PlantDiseaseResult.query.order_by(PlantDiseaseResult.timestamp.desc()).limit(20).all()`.
Modelled from the spec (`models.py` is not among the available sources): the
ORM query sorts the stored rows by timestamp, newest first, and keeps the
first 20.  A stable sort models SQL ORDER BY on the timestamp key. -/

/-- The descending-timestamp ordering used by the query. -/
def tsGE (a b : ResultRow) : Prop := b.timestamp ≤ a.timestamp

instance : DecidableRel tsGE := fun a b =>
  inferInstanceAs (Decidable (b.timestamp ≤ a.timestamp))

instance : IsTotal ResultRow tsGE := ⟨fun a b => Nat.le_total b.timestamp a.timestamp⟩

instance : IsTrans ResultRow tsGE := ⟨fun _ _ _ h h2 => le_trans h2 h⟩

/-- The query behind `/history` and `/api/results`: order by timestamp
descending, limit 20. -/
def latest20 (rows : List ResultRow) : List ResultRow :=
  (List.insertionSort tsGE rows).take 20

/-- `get_results` (app.py lines 157–168): 200 with the JSON list of the twenty
newest rows. -/
def get_results (rows : List ResultRow) : Nat × JsonBody :=
  (200, .results (latest20 rows))

/-- `history` (app.py lines 62–71): renders the same twenty newest rows; the
rendered list is what the theorem speaks about. -/
def history (rows : List ResultRow) : List ResultRow :=
  latest20 rows

/-! ## The treatment cache (app.py lines 53–56 and 141–155)

`get_cached_treatment` is `get_treatment_recommendation` wrapped in
`functools.lru_cache(maxsize=100)`: a hit moves the entry to most-recent and
returns the stored value without calling the wrapped function; a miss calls
it, stores the result as most-recent, and evicts the least-recent entry above
100; an exception from the wrapped function propagates and nothing is stored.
The external `get_treatment_recommendation` (from `gemini_service.py`, not
among the available sources) is an oracle parameter, `Except.error` when the
call raises. -/

/-- The cache contents, most-recent first. -/
abbrev Cache := List (String × String)

/-- `lru_cache` capacity: `maxsize=100` (app.py line 53). -/
def CACHE_MAXSIZE : Nat := 100

/-- Look a key up in the cache. -/
def cacheLookup (c : Cache) (k : String) : Option String :=
  (c.find? (fun p => p.1 == k)).map (fun p => p.2)

/-- On a hit, `lru_cache` moves the entry to most-recently-used. -/
def touchEntry (c : Cache) (k v : String) : Cache :=
  (k, v) :: c.filter (fun p => p.1 != k)

/-- On a miss, `lru_cache` stores the fresh value as most-recently-used and
drops the least-recently-used entry once the size passes `maxsize`. -/
def insertEvict (c : Cache) (k v : String) : Cache :=
  let c2 := (k, v) :: c
  if CACHE_MAXSIZE < c2.length then c2.dropLast else c2

/-- `get_cached_treatment` (app.py lines 53–56) under `lru_cache(maxsize=100)`.
Returns the result, the cache afterwards, and whether the external service was
invoked. -/
def get_cached_treatment (oracle : String → Except String String) (c : Cache)
    (k : String) : Except String String × Cache × Bool :=
  match cacheLookup c k with
  | some v => (.ok v, touchEntry c k v, false)
  | none =>
    match oracle k with
    | .ok v => (.ok v, insertEvict c k v, true)
    | .error e => (.error e, c, true)

/-- JSON body of an `/api/get_treatment` response. -/
inductive TreatBody where
  | err (msg : String)
  | treatment (t : String)
deriving DecidableEq, Repr

/-- `get_treatment` (app.py lines 141–155): 400 when the JSON body has no
`disease` field, otherwise the cached treatment; an exception from the
external call is caught and returned as a 500. -/
def get_treatment (oracle : String → Except String String) (c : Cache)
    (disease : Option String) : (Nat × TreatBody) × Cache :=
  match disease with
  | none => ((400, .err "Disease name is required"), c)
  | some d =>
    match get_cached_treatment oracle c d with
    | (.ok t, c2, _) => ((200, .treatment t), c2)
    | (.error e, c2, _) => ((500, .err e), c2)

/-! ## POST /api/chat (app.py lines 179–210)

`chat_with_gemini` (from `gemini_service.py`, not among the available
sources) is an oracle parameter.  The Flask cookie session, which stores the
server-generated session id across requests, is explicit state; `fresh` is
the `uuid.uuid4()` the handler would mint. -/

/-- Parsed JSON body of a chat request. -/
structure ChatReq where
  message : Option String
  session_id : Option String
deriving DecidableEq, Repr

/-- JSON body of an `/api/chat` response. -/
inductive ChatBody where
  | err (msg : String)
  | ok (response : String) (session_id : String)
deriving DecidableEq, Repr

/-- `handle_chat` (app.py lines 179–210).  `data` is `none` when the request
carries no JSON object.  Returns the response together with the cookie
session's stored id afterwards. -/
def handle_chat (oracle : String → String → Except String String)
    (cookie : Option String) (fresh : String) (data : Option ChatReq) :
    (Nat × ChatBody) × Option String :=
  match data with
  | none => ((400, .err "Message is required"), cookie)
  | some d =>
    match d.message with
    | none => ((400, .err "Message is required"), cookie)
    | some msg =>
      let stored := match cookie with
        | some s => s
        | none => fresh
      let session_id := match d.session_id with
        | some s => s
        | none => stored
      match oracle session_id msg with
      | .ok resp => ((200, .ok resp session_id), some stored)
      | .error e => ((500, .err e), some stored)

/-! ## The detector (plant_disease_detector.py lines 47–77)

`detect_disease` runs the model on the image, softmaxes the logits, takes the
arg-max, and looks the class name up in the model config's `id2label` map
(falling back to `"Class_<i>"` when the key is missing).  The model's logits
for the image are the `logits` parameter; `torch.exp` inside the softmax is an
arbitrary strictly positive function parameter `e` (only positivity and the
induced ratios matter to the claims); `id2label` is a partial map from indices
to names. -/

/-- `torch.nn.functional.softmax(logits, dim=-1)` with the exponential passed
in as `e`. -/
def softmax (e : ℚ → ℚ) (xs : List ℚ) : List ℚ :=
  xs.map (fun x => e x / (xs.map e).sum)

/-- The greatest element of a list (0 for the empty list, which never occurs:
logit vectors are nonempty). -/
def listMax : List ℚ → ℚ
  | [] => 0
  | [x] => x
  | x :: y :: xs => max x (listMax (y :: xs))

/-- `torch.argmax`: the index of the first occurrence of the maximum (the
head when it is at least the maximum of the tail, one past the tail's arg-max
otherwise). -/
def argmaxIdx : List ℚ → Nat
  | [] => 0
  | [_] => 0
  | x :: y :: ys => if listMax (y :: ys) ≤ x then 0 else argmaxIdx (y :: ys) + 1

/-- `id2label.get(str(top_prediction), f"Class_<top_prediction>")`
(plant_disease_detector.py line 70): the config lookup with its synthetic
fallback name. -/
def id2labelGet (m : Nat → Option String) (i : Nat) : String :=
  match m i with
  | some s => s
  | none => "Class_" ++ toString i

/-- `detect_disease` (plant_disease_detector.py lines 47–77) from the logits
on: softmax, arg-max, confidence read off at the arg-max index, class name
from `id2label`. -/
def detect_disease (e : ℚ → ℚ) (logits : List ℚ) (m : Nat → Option String) :
    Except String (String × ℚ) :=
  if logits.isEmpty then .error "empty logits"
  else
    let probabilities := softmax e logits
    let top_prediction := argmaxIdx probabilities
    let confidence := probabilities.getD top_prediction 0
    let predicted_class := id2labelGet m top_prediction
    .ok (predicted_class, confidence)

/-- `CLASSES` (plant_disease_detector.py lines 80–91): the fixed label
vocabulary. -/
def CLASSES : List String := [
  "Apple_Apple_scab", "Apple_Black_rot", "Apple_Cedar_apple_rust", "Apple_Healthy",
  "Background_without_leaves", "Blueberry_Healthy", "Cherry_Powdery_mildew", "Cherry_Healthy",
  "Corn_Cercospora_leaf_spot", "Corn_Common_rust", "Corn_Northern_Leaf_Blight", "Corn_Healthy",
  "Grape_Black_rot", "Grape_Esca", "Grape_Leaf_blight", "Grape_Healthy",
  "Orange_Haunglongbing", "Peach_Bacterial_spot", "Peach_Healthy",
  "Pepper_Bacterial_spot", "Pepper_Healthy", "Potato_Early_blight", "Potato_Late_blight", "Potato_Healthy",
  "Raspberry_Healthy", "Soybean_Healthy", "Squash_Powdery_mildew",
  "Strawberry_Leaf_scorch", "Strawberry_Healthy", "Tomato_Bacterial_spot", "Tomato_Early_blight",
  "Tomato_Late_blight", "Tomato_Leaf_Mold", "Tomato_Septoria_leaf_spot",
  "Tomato_Spider_mites", "Tomato_Target_Spot", "Tomato_Mosaic_virus", "Tomato_Yellow_Leaf_Curl_Virus", "Tomato_Healthy"
]

/-! ## The heuristic fallback classifier (plant_disease_detector.py lines 150–185)

`simple_disease_classifier` evaluates a fixed decision list over the 11
extracted features (8 colour ratios, 3 texture statistics).  Its branches for
tie-breaking, the healthy pick, and the no-rule fallback call
`random.random()`, `random.choice(...)` and `random.randint(...)` — but the
module never imports `random`, so each of those calls raises
a NameError (name random is not defined) at run time.  Those branches are
embedded as that error; float literals are exact rationals. -/

/-- The `NameError` raised by every `random.*` call in
`plant_disease_detector.py`, since the module lacks `import random`. -/
def nameErrorRandom : String := "NameError: name random is not defined"

/-- `simple_disease_classifier` (plant_disease_detector.py lines 150–185). -/
def simple_disease_classifier (features : List ℚ) : Except String Nat :=
  let color_features := features.take 8
  let texture_features := features.drop 8
  if 15/100 < color_features.getD 0 0 ∧ 2/10 < texture_features.getD 1 0 then
    .error nameErrorRandom
  else if 2/10 < color_features.getD 1 0 then .ok 30
  else if 1/10 < color_features.getD 3 0 then .ok 6
  else if 12/100 < color_features.getD 2 0 then .ok 31
  else if (color_features.take 5).sum / 5 < 1/10 ∧ 4/10 < color_features.getD 5 0 then
    .error nameErrorRandom
  else
    .error nameErrorRandom

/-! ## Theorems -/

/-- The extension check fails whenever the lowered text after the last dot is
not an allowed extension (when the filename has no dot at all the
dot-membership conjunct already fails). -/
theorem allowed_file_false_of_ext (filename : String)
    (h : ¬ ALLOWED_EXTENSIONS.contains (lowerStr (afterLastDot filename))) :
    allowed_file filename = false := by
  simp [allowed_file]
  intro _
  simpa using h

/-- C4: an upload request whose file part is absent, whose filename is empty,
or whose filename's lowercased extension (the text after the last dot) is not
in the png/jpg/jpeg/gif allow-list is answered with status 400, and neither
the upload directory nor the result store changes. -/
theorem upload_rejects_invalid (st : AppState) (req : UploadReq)
    (uniqueName : String) (detect : Except String (String × ℚ))
    (commit : Except String Nat) (now : Nat)
    (hbad : req.filePart = none ∨
      ∃ f, req.filePart = some f ∧
        (f.filename = "" ∨
          ¬ ALLOWED_EXTENSIONS.contains (lowerStr (afterLastDot f.filename)))) :
    (upload_image st req uniqueName detect commit now).2.status = 400 ∧
    (upload_image st req uniqueName detect commit now).1 = st := by
  rcases hbad with hnone | ⟨f, hf, hrest⟩
  · simp [upload_image, hnone]
  · rcases hrest with hempty | hext
    · simp [upload_image, hf, hempty]
    · by_cases hempty : f.filename = ""
      · simp [upload_image, hf, hempty]
      · simp [upload_image, hf, hempty, allowed_file_false_of_ext _ hext]

/-- C4 witness: the concrete rejected upload `malware.exe` against the empty
state. -/
theorem upload_rejects_invalid_witness :
    (upload_image ⟨[], []⟩ ⟨some ⟨"malware.exe"⟩⟩ "u.png"
        (.ok ("Apple_Healthy", 1)) (.ok 1) 7).2.status = 400 ∧
    (upload_image ⟨[], []⟩ ⟨some ⟨"malware.exe"⟩⟩ "u.png"
        (.ok ("Apple_Healthy", 1)) (.ok 1) 7).1 = ⟨[], []⟩ :=
  upload_rejects_invalid ⟨[], []⟩ ⟨some ⟨"malware.exe"⟩⟩ "u.png"
    (.ok ("Apple_Healthy", 1)) (.ok 1) 7
    (Or.inr ⟨⟨"malware.exe"⟩, rfl, Or.inr (by decide)⟩)

/-- C1: when a validated upload's post-save processing (detection or the
database commit) raises, the handler answers 500 with an error body, the
just-saved file is removed again, and no row is added: the state is exactly
what it was before the request. -/
theorem upload_error_cleanup (st : AppState) (req : UploadReq)
    (uniqueName : String) (detect : Except String (String × ℚ))
    (commit : Except String Nat) (now : Nat) (f : FilePart)
    (hreq : req.filePart = some f) (hname : f.filename ≠ "")
    (hext : allowed_file f.filename = true)
    (hfail : (∃ e, detect = .error e) ∨ ∃ e, commit = .error e) :
    (upload_image st req uniqueName detect commit now).2.status = 500 ∧
    (∃ m, (upload_image st req uniqueName detect commit now).2.body = .err m) ∧
    (upload_image st req uniqueName detect commit now).1 = st := by
  rcases hfail with ⟨e, he⟩ | ⟨e, he⟩
  · simp [upload_image, hreq, hname, hext, he, List.erase_cons_head]
  · cases hd : detect with
    | error d => simp [upload_image, hreq, hname, hext, hd, List.erase_cons_head]
    | ok p =>
      simp [upload_image, hreq, hname, hext, hd, he, List.erase_cons_head]

/-- C1 witness: a concrete upload of `leaf.png` whose detector raises against
a nonempty state. -/
theorem upload_error_cleanup_witness :
    (upload_image ⟨["static/uploads/old.png"], []⟩ ⟨some ⟨"leaf.png"⟩⟩ "u.png"
        (.error "model not found") (.ok 1) 7).2.status = 500 ∧
    (∃ m, (upload_image ⟨["static/uploads/old.png"], []⟩ ⟨some ⟨"leaf.png"⟩⟩ "u.png"
        (.error "model not found") (.ok 1) 7).2.body = .err m) ∧
    (upload_image ⟨["static/uploads/old.png"], []⟩ ⟨some ⟨"leaf.png"⟩⟩ "u.png"
        (.error "model not found") (.ok 1) 7).1 = ⟨["static/uploads/old.png"], []⟩ :=
  upload_error_cleanup ⟨["static/uploads/old.png"], []⟩ ⟨some ⟨"leaf.png"⟩⟩ "u.png"
    (.error "model not found") (.ok 1) 7 ⟨"leaf.png"⟩ rfl (by decide) (by decide)
    (Or.inl ⟨"model not found", rfl⟩)

/-- C2: against the claimed 404, `get_result` answers 500 for an id with no
stored row: `get_or_404` raises `NotFound`, a subclass of `Exception`, and the
handler's blanket `except Exception` converts it into a 500 error response.
Evaluated at the failing input — id 1 against an empty store. -/
theorem get_result_missing_id_is_500 :
    (get_result [] 1).1 = 500 ∧ (get_result [] 1).1 ≠ 404 := by decide

/-- C3 counterexample: with two stored rows sharing timestamp 5 the returned
list is not strictly descending by timestamp (the pairwise strict order fails
on the duplicate). -/
theorem latest20_equal_timestamps_not_strict :
    ¬ ((latest20 [⟨1, "p1", "x", 0, 5⟩, ⟨2, "p2", "y", 0, 5⟩]).Pairwise
        (fun a b => b.timestamp < a.timestamp)) := by decide

/-- C3 (amended): `/history` and `/api/results` both return the `latest20`
query, which yields at most 20 rows in weakly descending (non-increasing)
timestamp order; equal timestamps make the order non-strict. -/
theorem history_results_at_most_20_sorted (rows : List ResultRow) :
    history rows = latest20 rows ∧
    get_results rows = (200, JsonBody.results (latest20 rows)) ∧
    (latest20 rows).length ≤ 20 ∧
    (latest20 rows).Pairwise (fun a b => b.timestamp ≤ a.timestamp) := by
  refine ⟨rfl, rfl, ?_, ?_⟩
  · exact List.length_take_le 20 _
  · have hs : (List.insertionSort tsGE rows).Pairwise tsGE :=
      List.sorted_insertionSort tsGE rows
    exact (hs.sublist (List.take_sublist 20 _))

/-- A key just touched by a hit is found in the cache afterwards. -/
theorem cacheLookup_touchEntry (c : Cache) (k v : String) :
    cacheLookup (touchEntry c k v) k = some v := by
  simp [cacheLookup, touchEntry, List.find?]

/-- A key just stored by a miss is found in the cache afterwards: the
eviction drops the least-recent entry, never the fresh head. -/
theorem cacheLookup_insertEvict (c : Cache) (k v : String) :
    cacheLookup (insertEvict c k v) k = some v := by
  unfold insertEvict
  simp only [List.length_cons]
  by_cases h : CACHE_MAXSIZE < c.length + 1
  · rw [if_pos h]
    cases c with
    | nil => simp [CACHE_MAXSIZE] at h
    | cons p ps =>
      rw [List.dropLast_cons₂]
      simp [cacheLookup, List.find?]
  · rw [if_neg h]
    simp [cacheLookup, List.find?]

/-- A hit keeps the cache within any bound it already satisfies: the touched
entry replaces at least one stored copy of its key. -/
theorem touchEntry_length_le (c : Cache) (k v w : String) (n : Nat)
    (hk : cacheLookup c k = some w) (hc : c.length ≤ n) :
    (touchEntry c k v).length ≤ n := by
  have hf : ∃ p, c.find? (fun q => q.1 == k) = some p := by
    unfold cacheLookup at hk
    cases hfind : c.find? (fun q => q.1 == k) with
    | none => rw [hfind] at hk; simp at hk
    | some p => exact ⟨p, rfl⟩
  rcases hf with ⟨p, hp⟩
  have hmem : p ∈ c := List.mem_of_find?_eq_some hp
  have hpk := List.find?_some hp
  have hlt : (c.filter (fun q => q.1 != k)).length < c.length := by
    apply List.length_filter_lt_length_iff_exists.mpr
    refine ⟨p, hmem, ?_⟩
    simp [bne, hpk]
  have : (touchEntry c k v).length = (c.filter (fun q => q.1 != k)).length + 1 := by
    simp [touchEntry]
  omega

/-- A miss keeps the cache within the `maxsize` bound: either the new entry
fits, or the least-recent one is evicted. -/
theorem insertEvict_length_le (c : Cache) (k v : String)
    (hc : c.length ≤ CACHE_MAXSIZE) :
    (insertEvict c k v).length ≤ CACHE_MAXSIZE := by
  unfold insertEvict
  simp only [List.length_cons]
  by_cases h : CACHE_MAXSIZE < c.length + 1
  · rw [if_pos h]
    simp only [List.length_dropLast, List.length_cons]
    omega
  · rw [if_neg h]
    simp only [List.length_cons]
    omega

/-- C6: two consecutive treatment requests for the same label, each external
call outcome arbitrary: when the first yields a recommendation `v`, the second
is served from the `lru_cache(maxsize=100)` without invoking the external
service, both responses are equal, and the cache stays within its 100-entry
bound. -/
theorem treatment_memoized (o1 o2 : String → Except String String) (c : Cache)
    (k v : String) (h1 : (get_cached_treatment o1 c k).1 = .ok v)
    (hc : c.length ≤ CACHE_MAXSIZE) :
    (get_cached_treatment o2 (get_cached_treatment o1 c k).2.1 k).1 = .ok v ∧
    (get_cached_treatment o2 (get_cached_treatment o1 c k).2.1 k).2.2 = false ∧
    (get_cached_treatment o2 (get_cached_treatment o1 c k).2.1 k).2.1.length
      ≤ CACHE_MAXSIZE := by
  cases hl : cacheLookup c k with
  | some w =>
    have hw : w = v := by
      unfold get_cached_treatment at h1
      rw [hl] at h1
      simpa using h1
    subst hw
    have h2 : (get_cached_treatment o1 c k).2.1 = touchEntry c k w := by
      unfold get_cached_treatment
      rw [hl]
    rw [h2]
    unfold get_cached_treatment
    rw [cacheLookup_touchEntry]
    refine ⟨rfl, rfl, ?_⟩
    exact touchEntry_length_le _ _ _ _ _ (cacheLookup_touchEntry c k w)
      (touchEntry_length_le c k w w _ hl hc)
  | none =>
    cases ho : o1 k with
    | error e =>
      unfold get_cached_treatment at h1
      rw [hl, ho] at h1
      simp at h1
    | ok w =>
      have hw : w = v := by
        unfold get_cached_treatment at h1
        rw [hl, ho] at h1
        simpa using h1
      subst hw
      have h2 : (get_cached_treatment o1 c k).2.1 = insertEvict c k w := by
        unfold get_cached_treatment
        rw [hl, ho]
      rw [h2]
      unfold get_cached_treatment
      rw [cacheLookup_insertEvict]
      refine ⟨rfl, rfl, ?_⟩
      exact touchEntry_length_le _ _ _ _ _ (cacheLookup_insertEvict c k w)
        (insertEvict_length_le c k w hc)

/-- C6 witness: requesting the treatment for Apple_Black_rot twice against an
empty cache, the second external call answering differently: both responses
are the first call's text, the second request does not invoke the service,
and the cache stays bounded. -/
theorem treatment_memoized_witness :
    (get_cached_treatment (fun _ => .ok "other")
        (get_cached_treatment (fun _ => .ok "prune and burn")
          [] "Apple_Black_rot").2.1 "Apple_Black_rot").1 = .ok "prune and burn" ∧
    (get_cached_treatment (fun _ => .ok "other")
        (get_cached_treatment (fun _ => .ok "prune and burn")
          [] "Apple_Black_rot").2.1 "Apple_Black_rot").2.2 = false ∧
    (get_cached_treatment (fun _ => .ok "other")
        (get_cached_treatment (fun _ => .ok "prune and burn")
          [] "Apple_Black_rot").2.1 "Apple_Black_rot").2.1.length ≤ CACHE_MAXSIZE :=
  treatment_memoized (fun _ => .ok "prune and burn") (fun _ => .ok "other")
    [] "Apple_Black_rot" "prune and burn" (by decide) (by decide)

/-- C10: a failing external treatment call is not cached: the endpoint answers
500, the cache is exactly what it was, and a subsequent request for the same
label invokes the external service again. -/
theorem treatment_error_not_cached (o1 o2 : String → Except String String)
    (c : Cache) (d e : String) (hmiss : cacheLookup c d = none)
    (herr : o1 d = .error e) :
    (get_treatment o1 c (some d)).1.1 = 500 ∧
    (get_treatment o1 c (some d)).2 = c ∧
    (get_cached_treatment o2 c d).2.2 = true := by
  refine ⟨?_, ?_, ?_⟩
  · simp [get_treatment, get_cached_treatment, hmiss, herr]
  · simp [get_treatment, get_cached_treatment, hmiss, herr]
  · simp only [get_cached_treatment, hmiss]
    cases o2 d <;> rfl

/-- C10 witness: a concrete failing call for Grape_Esca against the empty
cache. -/
theorem treatment_error_not_cached_witness :
    (get_treatment (fun _ => .error "api down") [] (some "Grape_Esca")).1.1 = 500 ∧
    (get_treatment (fun _ => .error "api down") [] (some "Grape_Esca")).2 = [] ∧
    (get_cached_treatment (fun _ => .ok "later") [] "Grape_Esca").2.2 = true :=
  treatment_error_not_cached (fun _ => .error "api down") (fun _ => .ok "later")
    [] "Grape_Esca" "api down" (by decide) rfl

/-- C8: a chat request without a `message` field is answered 400; a request
with a message whose external chat call succeeds is answered 200 with a body
holding the reply and a `session_id` that is the client-supplied one when
present and otherwise the server-held id (the cookie session's id, or the
freshly minted one on a first contact), which is also stored in the cookie
session for reuse. -/
theorem handle_chat_spec (oracle : String → String → Except String String)
    (cookie : Option String) (fresh : String) (data : Option ChatReq) :
    ((data = none ∨ ∃ d, data = some d ∧ d.message = none) →
      (handle_chat oracle cookie fresh data).1.1 = 400) ∧
    (∀ d msg resp, data = some d → d.message = some msg →
      oracle (d.session_id.getD (cookie.getD fresh)) msg = .ok resp →
      handle_chat oracle cookie fresh data =
        ((200, .ok resp (d.session_id.getD (cookie.getD fresh))),
         some (cookie.getD fresh))) := by
  constructor
  · rintro (hnone | ⟨d, hd, hmsg⟩)
    · simp [handle_chat, hnone]
    · simp [handle_chat, hd, hmsg]
  · rintro d msg resp hd hmsg hok
    subst hd
    cases hcookie : cookie with
    | none =>
      cases hsid : d.session_id with
      | none =>
        simp [handle_chat, hmsg, hsid, hcookie] at hok ⊢
        rw [hok]
      | some s =>
        simp [handle_chat, hmsg, hsid, hcookie] at hok ⊢
        rw [hok]
    | some s0 =>
      cases hsid : d.session_id with
      | none =>
        simp [handle_chat, hmsg, hsid, hcookie] at hok ⊢
        rw [hok]
      | some s =>
        simp [handle_chat, hmsg, hsid, hcookie] at hok ⊢
        rw [hok]

/-- C8 witness: a first-contact chat with no cookie session and a
client-supplied session id s7: the reply echoes s7 and the server stores its
own fresh id u1. -/
theorem handle_chat_spec_witness :
    handle_chat (fun _ _ => .ok "hello") none "u1"
        (some ⟨some "hi", some "s7"⟩) =
      ((200, .ok "hello" "s7"), some "u1") :=
  (handle_chat_spec (fun _ _ => .ok "hello") none "u1"
      (some ⟨some "hi", some "s7"⟩)).2 ⟨some "hi", some "s7"⟩ "hi" "hello"
    rfl rfl rfl

/-- C9: `plant_disease_detector.py` never imports `random`, so on the all-zero
feature vector — where no threshold rule matches and the code reaches
`random.randint(0, len(CLASSES) - 1)` — `simple_disease_classifier` raises
`NameError` instead of returning a random class index. -/
theorem classifier_missing_random_import :
    simple_disease_classifier (List.replicate 11 0) = .error nameErrorRandom := by
  norm_num [simple_disease_classifier, nameErrorRandom, List.replicate]

/-- Every element of a list is at most its maximum. -/
theorem le_listMax : ∀ (xs : List ℚ), ∀ q ∈ xs, q ≤ listMax xs
  | [], q, hq => by simp at hq
  | [x], q, hq => by
      simp only [List.mem_singleton] at hq
      simp [listMax, hq]
  | x :: y :: ys, q, hq => by
      simp only [listMax]
      rcases List.mem_cons.mp hq with h | h
      · subst h
        exact le_max_left _ _
      · exact le_trans (le_listMax (y :: ys) q h) (le_max_right _ _)

/-- The maximum of a nonempty list is one of its elements. -/
theorem listMax_mem : ∀ (xs : List ℚ), xs ≠ [] → listMax xs ∈ xs
  | [], h => absurd rfl h
  | [x], _ => by simp [listMax]
  | x :: y :: ys, _ => by
      simp only [listMax]
      rcases max_cases x (listMax (y :: ys)) with ⟨h, _⟩ | ⟨h, _⟩
      · rw [h]; exact List.mem_cons_self _ _
      · rw [h]
        exact List.mem_cons_of_mem _ (listMax_mem (y :: ys) (by simp))

/-- The arg-max index of a nonempty list is in range. -/
theorem argmaxIdx_lt_length : ∀ (xs : List ℚ), xs ≠ [] → argmaxIdx xs < xs.length
  | [], h => absurd rfl h
  | [x], _ => by simp [argmaxIdx]
  | x :: y :: ys, _ => by
      by_cases h : listMax (y :: ys) ≤ x
      · simp [argmaxIdx, h]
      · have ih := argmaxIdx_lt_length (y :: ys) (by simp)
        simp only [argmaxIdx, if_neg h, List.length_cons]
        simp only [List.length_cons] at ih
        omega

/-- The element at the arg-max index is the maximum. -/
theorem getD_argmaxIdx : ∀ (xs : List ℚ), xs ≠ [] →
    xs.getD (argmaxIdx xs) 0 = listMax xs
  | [], h => absurd rfl h
  | [x], _ => by simp [argmaxIdx, listMax]
  | x :: y :: ys, _ => by
      by_cases h : listMax (y :: ys) ≤ x
      · simp only [argmaxIdx, if_pos h, listMax, List.getD_cons_zero]
        exact (max_eq_left h).symm
      · have ih := getD_argmaxIdx (y :: ys) (by simp)
        push_neg at h
        simp only [argmaxIdx, if_neg (not_le.mpr h), listMax, List.getD_cons_succ]
        rw [ih, max_eq_right (le_of_lt h)]

/-- The softmax of a nonempty list is nonempty. -/
theorem softmax_ne_nil (e : ℚ → ℚ) (xs : List ℚ) (h : xs ≠ []) :
    softmax e xs ≠ [] := by
  simp [softmax, h]

/-- With a positive exponential every softmax score lies in [0, 1]: each score
is a positive term divided by the sum of all the (positive) terms. -/
theorem softmax_mem_bounds (e : ℚ → ℚ) (xs : List ℚ) (he : ∀ x, 0 < e x) :
    ∀ q ∈ softmax e xs, 0 ≤ q ∧ q ≤ 1 := by
  intro q hq
  simp only [softmax, List.mem_map] at hq
  rcases hq with ⟨x, hx, rfl⟩
  have hpos : 0 < (xs.map e).sum := by
    apply List.sum_pos
    · intro y hy
      rcases List.mem_map.mp hy with ⟨z, _, rfl⟩
      exact he z
    · simp
      exact List.ne_nil_of_mem hx
  constructor
  · exact div_nonneg (le_of_lt (he x)) (le_of_lt hpos)
  · rw [div_le_one hpos]
    exact List.single_le_sum
      (fun y hy => by
        rcases List.mem_map.mp hy with ⟨z, _, rfl⟩
        exact le_of_lt (he z))
      _ (List.mem_map.mpr ⟨x, hx, rfl⟩)

/-- C7: on a nonempty logits vector, `detect_disease` softmaxes the logits,
picks an in-range index whose softmax score is the maximum of the whole
distribution (the arg-max), maps that index through the `id2label` mapping
(with its `Class_<i>` fallback) to the class name, and returns that name with
the arg-max score as the confidence. -/
theorem detect_disease_spec (e : ℚ → ℚ) (logits : List ℚ)
    (m : Nat → Option String) (hne : logits ≠ []) :
    argmaxIdx (softmax e logits) < (softmax e logits).length ∧
    detect_disease e logits m =
      .ok (id2labelGet m (argmaxIdx (softmax e logits)),
        (softmax e logits).getD (argmaxIdx (softmax e logits)) 0) ∧
    ∀ q ∈ softmax e logits,
      q ≤ (softmax e logits).getD (argmaxIdx (softmax e logits)) 0 := by
  have hsne : softmax e logits ≠ [] := softmax_ne_nil e logits hne
  refine ⟨argmaxIdx_lt_length _ hsne, ?_, ?_⟩
  · simp [detect_disease, hne]
  · rw [getD_argmaxIdx _ hsne]
    exact le_listMax _

/-- C7 witness: the detector applied to the logits [0, 5] with a constant
positive exponential and an empty label mapping. -/
theorem detect_disease_spec_witness :
    detect_disease (fun _ => 1) [0, 5] (fun _ => none) =
      .ok (id2labelGet (fun _ => none) (argmaxIdx (softmax (fun _ => 1) [0, 5])),
        (softmax (fun _ => 1) [0, 5]).getD
          (argmaxIdx (softmax (fun _ => 1) [0, 5])) 0) :=
  (detect_disease_spec (fun _ => 1) [0, 5] (fun _ => none) (by simp)).2.1

/-- C5 counterexample: a successful upload whose model config has an empty
`id2label` map stores a row with prediction `Class_0`, which is not in the
fixed label vocabulary: the code substitutes the synthetic name
`"Class_" + str(i)` when `id2label` lacks the arg-max index, so nothing ties
the stored prediction to `CLASSES`. -/
theorem upload_prediction_outside_vocab :
    detect_disease (fun _ => 1) [0] (fun _ => none) = .ok ("Class_0", 1) ∧
    (upload_image ⟨[], []⟩ ⟨some ⟨"leaf.png"⟩⟩ "u.png"
        (detect_disease (fun _ => 1) [0] (fun _ => none)) (.ok 1) 7).2.status
      = 200 ∧
    (upload_image ⟨[], []⟩ ⟨some ⟨"leaf.png"⟩⟩ "u.png"
        (detect_disease (fun _ => 1) [0] (fun _ => none)) (.ok 1) 7).1.rows
      = [⟨1, "static/uploads/u.png", "Class_0", 1, 7⟩] ∧
    "Class_0" ∉ CLASSES := by
  have hdet : detect_disease (fun _ => 1) [0] (fun _ => none)
      = .ok ("Class_0", 1) := by
    norm_num [detect_disease, softmax, argmaxIdx, listMax, id2labelGet]
    decide
  refine ⟨hdet, ?_, ?_, by decide⟩
  · rw [hdet]; decide
  · rw [hdet]; decide

/-- C5 (amended): every row created by a successful upload has its confidence
in [0, 1] (the arg-max softmax score); its prediction is the `id2label` image
of the arg-max index, so it lies in the fixed vocabulary whenever the model
config maps that index to a vocabulary element — the synthetic `Class_<i>`
fallback used when the mapping lacks the index is otherwise unconstrained. -/
theorem upload_success_row_invariant (st : AppState) (req : UploadReq)
    (uniqueName : String) (now : Nat) (f : FilePart) (e : ℚ → ℚ)
    (logits : List ℚ) (m : Nat → Option String) (rid : Nat)
    (hreq : req.filePart = some f) (hname : f.filename ≠ "")
    (hext : allowed_file f.filename = true) (he : ∀ x, 0 < e x)
    (hlog : logits ≠ []) :
    ∃ row : ResultRow,
      (upload_image st req uniqueName (detect_disease e logits m)
          (.ok rid) now).1.rows = st.rows ++ [row] ∧
      (upload_image st req uniqueName (detect_disease e logits m)
          (.ok rid) now).2.status = 200 ∧
      0 ≤ row.confidence ∧ row.confidence ≤ 1 ∧
      row.prediction = id2labelGet m (argmaxIdx (softmax e logits)) ∧
      ∀ s, m (argmaxIdx (softmax e logits)) = some s → s ∈ CLASSES →
        row.prediction ∈ CLASSES := by
  have hsne : softmax e logits ≠ [] := softmax_ne_nil e logits hlog
  have hdet : detect_disease e logits m =
      .ok (id2labelGet m (argmaxIdx (softmax e logits)),
        (softmax e logits).getD (argmaxIdx (softmax e logits)) 0) := by
    simp [detect_disease, hlog]
  have hconfmem : (softmax e logits).getD (argmaxIdx (softmax e logits)) 0
      ∈ softmax e logits := by
    rw [getD_argmaxIdx _ hsne]
    exact listMax_mem _ hsne
  have hbounds := softmax_mem_bounds e logits he _ hconfmem
  refine ⟨⟨rid, UPLOAD_FOLDER ++ "/" ++ uniqueName,
      id2labelGet m (argmaxIdx (softmax e logits)),
      (softmax e logits).getD (argmaxIdx (softmax e logits)) 0, now⟩,
    ?_, ?_, hbounds.1, hbounds.2, rfl, ?_⟩
  · simp [upload_image, hreq, hname, hext, hdet]
  · simp [upload_image, hreq, hname, hext, hdet]
  · intro t ht hmem
    simpa [id2labelGet, ht] using hmem

/-- C5 witness: a concrete successful upload of `leaf.png` with logits [0, 5]
and a config mapping every index into the vocabulary. -/
theorem upload_success_row_invariant_witness :
    ∃ row : ResultRow,
      (upload_image ⟨[], []⟩ ⟨some ⟨"leaf.png"⟩⟩ "u.png"
          (detect_disease (fun _ => 1) [0, 5]
            (fun i => if i = 0 then some "Apple_Apple_scab"
                      else some "Apple_Black_rot"))
          (.ok 1) 7).1.rows = ([] : List ResultRow) ++ [row] ∧
      (upload_image ⟨[], []⟩ ⟨some ⟨"leaf.png"⟩⟩ "u.png"
          (detect_disease (fun _ => 1) [0, 5]
            (fun i => if i = 0 then some "Apple_Apple_scab"
                      else some "Apple_Black_rot"))
          (.ok 1) 7).2.status = 200 ∧
      0 ≤ row.confidence ∧ row.confidence ≤ 1 ∧
      row.prediction = id2labelGet
        (fun i => if i = 0 then some "Apple_Apple_scab"
                  else some "Apple_Black_rot")
        (argmaxIdx (softmax (fun _ => 1) [0, 5])) ∧
      ∀ s, (fun i => if i = 0 then some "Apple_Apple_scab"
              else some "Apple_Black_rot")
            (argmaxIdx (softmax (fun _ => 1) [0, 5])) = some s →
        s ∈ CLASSES → row.prediction ∈ CLASSES :=
  upload_success_row_invariant ⟨[], []⟩ ⟨some ⟨"leaf.png"⟩⟩ "u.png" 7
    ⟨"leaf.png"⟩ (fun _ => 1) [0, 5]
    (fun i => if i = 0 then some "Apple_Apple_scab"
              else some "Apple_Black_rot") 1
    rfl (by decide) (by decide) (fun _ => one_pos) (by simp)

end CropDisease
